import Mathlib

/-
  Verification of the Device Link + Cross-Instance Router subsystem of the
  homecast repository, against its natural-language specification.

  The embedding models:
  * `server/homecast/websocket/pubsub_router.py` - `PubSubRouter.send_request`,
    `PubSubRouter._resolve_future`, `PubSubRouter._handle_remote_request`,
    `PubSubRouter._add_to_buffer` / `_flush_buffer`;
  * `server/homekit_mcp/websocket/handler.py` - `ConnectionManager.send_request`
    and `ConnectionManager.handle_message`.

  Modelling conventions:
  * JSON dictionaries travelling over the bus or the websocket are modelled as
    values of an inductive `Json` type; the stdlib json.dumps/json.loads pair at
    the channel boundary is modelled as the identity on these values.
  * The persisted stores are modelled as association lists inside an explicit
    state record, mutated sequentially (one cooperative scheduler per instance;
    the spec's short-lived scoped transactions are atomic steps here).
  * External nondeterminism (publish outcomes, awaited bus responses, generated
    correlation ids) is supplied by an environment record; per-attempt values
    are keyed by the is_retry flag of the attempt that consumes them.
  * Python exceptions become an `Except` with an explicit error inductive; each
    constructor records which source raise-site produced it.
-/

namespace Homecast

/-- JSON values, the payloads carried by the bus and websocket protocol. -/
inductive Json where
  | null
  | bool (b : Bool)
  | num (n : Int)
  | str (s : String)
  | arr (elems : List Json)
  | obj (fields : List (String × Json))

/-- Lookup of a field in a JSON object field list (first match wins,
mirroring Python dict key lookup). -/
def Json.lookupField : List (String × Json) → String → Option Json
  | [], _ => none
  | (k, v) :: rest, key => if k = key then some v else Json.lookupField rest key

/-- Python `d.get(key)` / `d[key]` presence test on a JSON object. -/
def Json.get? : Json → String → Option Json
  | .obj fields, key => Json.lookupField fields key
  | _, _ => none

/-- Python `d.get(key, default)`. -/
def Json.getD (j : Json) (key : String) (d : Json) : Json := (j.get? key).getD d

/-- Python `key in d`. -/
def Json.hasKey (j : Json) (key : String) : Bool := (j.get? key).isSome

/-- Association list lookup (Python dict read; dict keys are unique, the first
match is the entry). -/
def getKey {α : Type} : List (String × α) → String → Option α
  | [], _ => none
  | (k', v) :: rest, k => if k' = k then some v else getKey rest k

/-- Association list write, Python `d[k] = v`: replace the existing entry in
place or append a new one. -/
def setKey {α : Type} : List (String × α) → String → α → List (String × α)
  | [], k, v => [(k, v)]
  | (k', v') :: rest, k, v =>
      if k' = k then (k, v) :: rest else (k', v') :: setKey rest k v

/-- Association list removal, Python `d.pop(k, None)`. -/
def popKey {α : Type} : List (String × α) → String → List (String × α)
  | [], _ => []
  | (k', v) :: rest, k => if k' = k then rest else (k', v) :: popKey rest k

/-- Removal of every entry for a key (a keyed DB row deletion). -/
def eraseKey {α : Type} : List (String × α) → String → List (String × α) :=
  fun l key => l.filter (fun p => p.1 != key)

/-- Persisted state read by the router: the Device Session Directory
(device_id to owning instance_id, non-stale records only) and the Topic Slot
Pool (instance_id to claimed slot_name). -/
structure RouterState where
  directory : List (String × String)
  slots : List (String × String)

/-- Modelled from the spec: `SessionRepository.get_device_session` (module
`session_repository` is imported by the repositories package but its file is
not in the source tree). Per spec section 6, `DeviceSessionDirectory.get`
returns the current non-stale owner record for a device, if any. -/
def get_device_session (st : RouterState) (device : String) : Option String :=
  getKey st.directory device

/-- Modelled from the spec: `SessionRepository.invalidate_instance_for_device`
(file missing from the source tree). Per spec section 6,
`DeviceSessionDirectory.invalidateOwner(deviceId, expectedInstance)` clears the
ownership record when it still names the expected instance, and reports whether
it did. -/
def invalidate_instance_for_device (dir : List (String × String))
    (device expected : String) : Bool × List (String × String) :=
  match getKey dir device with
  | some inst => if inst = expected then (true, eraseKey dir device) else (false, dir)
  | none => (false, dir)

/-- Modelled from the spec: `TopicSlotRepository.get_slot_for_instance` (file
missing from the source tree). Per spec section 6,
`TopicSlotPool.slotForInstance` returns the slot currently claimed by the
instance, if any. -/
def get_slot_for_instance (st : RouterState) (inst : String) : Option String :=
  getKey st.slots inst

/-- Modelled from the spec: `TopicSlotRepository.delete_slot_by_name` (file
missing from the source tree), called by `PubSubRouter._handle_deleted_topic`:
removes the slot row for a slot whose underlying topic is gone. -/
def delete_slot_by_name (slots : List (String × String)) (name : String) :
    List (String × String) :=
  slots.filter (fun p => p.2 != name)

/-- Outcome of one `publisher.publish(...).result(timeout=5)` call. -/
inductive PublishRes where
  | ok
  | notFound
  | fail (msg : String)

/-- Outcome of awaiting the cross-thread result future for one attempt. -/
inductive AwaitRes where
  | result (data : Json)
  | timedOut
  | raised (msg : String)

/-- Environment of a `PubSubRouter.send_request` call: configuration, the local
device checker and local handler callbacks, and the externally supplied
outcomes, keyed by the is_retry flag of the attempt consuming them. -/
structure Env where
  enabled : Bool
  myInstance : String
  mySlot : String
  checkerSet : Bool
  checker : String → Bool
  handlerSet : Bool
  handler : String → String → Json → Nat → Except String Json
  cid : Bool → String
  publishRes : Bool → PublishRes
  response : Bool → AwaitRes

/-- Errors raised by `PubSubRouter.send_request`; every constructor except
`timeout` (a Python TimeoutError) and `handlerRaised` (whatever the local
handler raised) is a Python ValueError raise-site of the source. -/
inductive RouterError where
  | noHandler
  | handlerRaised (msg : String)
  | notConnected (device : String)
  | noInstanceId (device : String)
  | noSlot (inst : String)
  | slotGone (slot : String)
  | publishFailed (slot msg : String)
  | requestFailed (msg : String)
  | timeout (device : String)
  | deviceError (message : Json)

/-- Whether the error reaches the caller as a Python ValueError. -/
def RouterError.raisedAsValueError : RouterError → Bool
  | .timeout _ => false
  | .handlerRaised _ => false
  | _ => true

/-- Observable effects of a `send_request` run, in program order. -/
inductive Event where
  | localCall (device action : String) (payload : Json) (timeout : Nat)
  | dirLookup (device : String) (result : Option String)
  | slotLookup (inst : String) (result : Option String)
  | invalidate (device inst : String) (ok : Bool)
  | publish (slot : String) (msg : Json)
  | slotCleanup (slot : String)
  | awaitResult (corrId : String)

/-- Whether an event is a directory invalidation. -/
def Event.isInvalidate : Event → Bool
  | .invalidate _ _ _ => true
  | _ => false

/-- Whether an event is a delegation to the local handler. -/
def Event.isLocalCall : Event → Bool
  | .localCall _ _ _ _ => true
  | _ => false

/-- Whether an event is a bus publish. -/
def Event.isPublish : Event → Bool
  | .publish _ _ => true
  | _ => false

/-- Whether an event is a store lookup (directory or slot pool). -/
def Event.isStoreLookup : Event → Bool
  | .dirLookup _ _ => true
  | .slotLookup _ _ => true
  | _ => false

/-- Result of the local handler call, lifted into the router error type. -/
def handlerOutcome (r : Except String Json) : Except RouterError Json :=
  match r with
  | .ok j => .ok j
  | .error m => .error (.handlerRaised m)

/-- The bus request envelope built by `send_request` (pubsub_router.py line
364): the dict passed to json.dumps before publishing. -/
def requestMessage (corrId sourceSlot device action : String) (payload : Json) :
    Json :=
  .obj [("type", .str "request"), ("correlation_id", .str corrId),
        ("source_slot", .str sourceSlot), ("device_id", .str device),
        ("action", .str action), ("payload", payload)]

/-- The DEVICE_NOT_HERE test on a received error object (pubsub_router.py
lines 413, 417): reads `error.code` and compares against the literal. -/
def errorCodeIsDeviceNotHere (err : Json) : Bool :=
  match err.get? "code" with
  | some (.str c) => c = "DEVICE_NOT_HERE"
  | _ => false

/-- Result of a `send_request` call: the returned value or raised error, the
persisted state afterwards, the effect trace, and how many attempts ran. -/
structure SendResult where
  outcome : Except RouterError Json
  state : RouterState
  events : List Event
  attempts : Nat

/-- Body of `PubSubRouter.send_request` (pubsub_router.py lines 289-426).
`retries` is the remaining retry budget: the source flag `is_retry=True`
corresponds to `retries = 0` and `is_retry=False` to `retries = 1`; each
recursive retry site of the source (all guarded by `not is_retry`) recurses
with the budget spent. The cleanup `finally` pop of the pending-requests map
is not part of the observable result and is modelled separately by
`resolve_future`. -/
def sendRequestGo (env : Env) (device action : String) (payload : Json)
    (timeout : Nat) (retries : Nat) (st : RouterState) : SendResult :=
  let isRetry : Bool := retries == 0
  if !env.enabled then
    if env.handlerSet then
      ⟨handlerOutcome (env.handler device action payload timeout), st,
        [.localCall device action payload timeout], 1⟩
    else ⟨.error .noHandler, st, [], 1⟩
  else if env.checkerSet && env.checker device then
    if env.handlerSet then
      ⟨handlerOutcome (env.handler device action payload timeout), st,
        [.localCall device action payload timeout], 1⟩
    else ⟨.error .noHandler, st, [], 1⟩
  else
    match get_device_session st device with
    | none => ⟨.error (.notConnected device), st, [.dirLookup device none], 1⟩
    | some deviceInstance =>
      let ev0 : List Event := [.dirLookup device (some deviceInstance)]
      if deviceInstance = "" then
        ⟨.error (.noInstanceId device), st, ev0, 1⟩
      else if deviceInstance = env.myInstance then
        if env.handlerSet then
          ⟨handlerOutcome (env.handler device action payload timeout), st,
            ev0 ++ [.localCall device action payload timeout], 1⟩
        else ⟨.error .noHandler, st, ev0, 1⟩
      else
        match get_slot_for_instance st deviceInstance with
        | none =>
          let ev1 := ev0 ++ [.slotLookup deviceInstance none]
          match retries with
          | Nat.succ r =>
            let inv := invalidate_instance_for_device st.directory device deviceInstance
            let st1 : RouterState := { st with directory := inv.2 }
            let ev2 := ev1 ++ [.invalidate device deviceInstance inv.1]
            if inv.1 then
              let rec1 := sendRequestGo env device action payload timeout r st1
              ⟨rec1.outcome, rec1.state, ev2 ++ rec1.events, rec1.attempts + 1⟩
            else ⟨.error (.noSlot deviceInstance), st1, ev2, 1⟩
          | 0 => ⟨.error (.noSlot deviceInstance), st, ev1, 1⟩
        | some targetSlot =>
          let corrId := env.cid isRetry
          let msg := requestMessage corrId env.mySlot device action payload
          let ev1 := ev0 ++
            [.slotLookup deviceInstance (some targetSlot), .publish targetSlot msg]
          match env.publishRes isRetry with
          | .notFound =>
            let st1 : RouterState :=
              { st with slots := delete_slot_by_name st.slots targetSlot }
            let ev2 := ev1 ++ [.slotCleanup targetSlot]
            match retries with
            | Nat.succ r =>
              let inv := invalidate_instance_for_device st1.directory device deviceInstance
              let st2 : RouterState := { st1 with directory := inv.2 }
              let ev3 := ev2 ++ [.invalidate device deviceInstance inv.1]
              if inv.1 then
                let rec1 := sendRequestGo env device action payload timeout r st2
                ⟨rec1.outcome, rec1.state, ev3 ++ rec1.events, rec1.attempts + 1⟩
              else ⟨.error (.slotGone targetSlot), st2, ev3, 1⟩
            | 0 => ⟨.error (.slotGone targetSlot), st1, ev2, 1⟩
          | .fail m => ⟨.error (.publishFailed targetSlot m), st, ev1, 1⟩
          | .ok =>
            let ev2 := ev1 ++ [.awaitResult corrId]
            match env.response isRetry with
            | .timedOut =>
              match retries with
              | Nat.succ r =>
                let inv := invalidate_instance_for_device st.directory device deviceInstance
                let st1 : RouterState := { st with directory := inv.2 }
                let ev3 := ev2 ++ [.invalidate device deviceInstance inv.1]
                if inv.1 then
                  let rec1 := sendRequestGo env device action payload timeout r st1
                  ⟨rec1.outcome, rec1.state, ev3 ++ rec1.events, rec1.attempts + 1⟩
                else ⟨.error (.timeout device), st1, ev3, 1⟩
              | 0 => ⟨.error (.timeout device), st, ev2, 1⟩
            | .raised m => ⟨.error (.requestFailed m), st, ev2, 1⟩
            | .result res =>
              match res.get? "error" with
              | some err =>
                let errMessage := err.getD "message" (.str "Unknown error")
                match retries with
                | Nat.succ r =>
                  if errorCodeIsDeviceNotHere err then
                    let rec1 := sendRequestGo env device action payload timeout r st
                    ⟨rec1.outcome, rec1.state, ev2 ++ rec1.events, rec1.attempts + 1⟩
                  else ⟨.error (.deviceError errMessage), st, ev2, 1⟩
                | 0 => ⟨.error (.deviceError errMessage), st, ev2, 1⟩
              | none => ⟨.ok (res.getD "payload" (.obj [])), st, ev2, 1⟩

/-- `PubSubRouter.send_request` with the source signature: the `is_retry`
keyword argument translated to the retry budget of `sendRequestGo`. -/
def send_request (env : Env) (st : RouterState) (device action : String)
    (payload : Json) (timeout : Nat) (isRetry : Bool) : SendResult :=
  sendRequestGo env device action payload timeout (if isRetry then 0 else 1) st

/-- `PubSubRouter._resolve_future` (pubsub_router.py lines 641-654) acting on
the pending-requests map, `correlation_id` to future; a future is `none` while
unresolved and `some data` once `set_result(data)` ran. A missing entry or an
already-done future is logged and left untouched. -/
def resolve_future (pending : List (String × Option Json)) (corrId : String)
    (data : Json) : List (String × Option Json) :=
  match getKey pending corrId with
  | none => pending
  | some (some _) => pending
  | some none => setKey pending corrId (some data)

/-- State of `ConnectionManager` (handler.py lines 66-75): the local device
connection table (device ids) and the pending-requests map, request id to the
content of the bounded response queue (`asyncio.Queue(maxsize=1)`). -/
structure CMState where
  connections : List String
  pending : List (String × List Json)

/-- Errors raised by `ConnectionManager.send_request`: `notConnected` and
`errorResponse` are the two ValueError raise-sites, `timeout` the
TimeoutError. -/
inductive CMError where
  | notConnected (device : String)
  | timeout (device : String)
  | errorResponse (code message : Json)

/-- Outcome of awaiting `pending.queue.get()` under `asyncio.wait_for`. -/
inductive CMAwait where
  | got (result : Json)
  | timedOut

/-- Environment of one `ConnectionManager.send_request` call: the generated
request id and the awaited queue outcome. -/
structure CMEnv where
  requestId : String
  awaitRes : CMAwait

/-- Effects of `ConnectionManager.send_request`: the envelope written to the
device websocket. -/
inductive CMEvent where
  | wsSend (device : String) (msg : Json)

/-- Result of a `ConnectionManager.send_request` call. -/
structure CMSendResult where
  outcome : Except CMError Json
  state : CMState
  events : List CMEvent

/-- `ConnectionManager.send_request` (handler.py lines 153-223): fail if the
device id is absent from the local table; otherwise register a pending entry,
write the request envelope to the socket, await the queue, and in a `finally`
step pop the pending entry again. -/
def cm_send_request (env : CMEnv) (st : CMState) (device action : String)
    (payload : Json) (timeout : Nat) : CMSendResult :=
  if !st.connections.contains device then
    ⟨.error (.notConnected device), st, []⟩
  else
    let rid := env.requestId
    let stReg : CMState := { st with pending := setKey st.pending rid [] }
    let sendEv := CMEvent.wsSend device
      (.obj [("id", .str rid), ("type", .str "request"),
             ("action", .str action), ("payload", payload)])
    let stAfter : CMState := { stReg with pending := popKey stReg.pending rid }
    match env.awaitRes with
    | .timedOut => ⟨.error (.timeout device), stAfter, [sendEv]⟩
    | .got res =>
      if res.hasKey "error" then
        let err := res.getD "error" .null
        ⟨.error (.errorResponse (err.getD "code" (.str "ERROR"))
            (err.getD "message" (.str "Unknown error"))), stAfter, [sendEv]⟩
      else ⟨.ok (res.getD "payload" (.obj [])), stAfter, [sendEv]⟩

/-- `ConnectionManager.handle_message` (handler.py lines 225-280), the state
effect on the pending-requests map. A `response` frame whose id names a
pending entry puts the result into that bounded queue; `put_nowait` on a full
queue (a duplicate response) raises QueueFull, which is caught and logged. A
falsy or unknown id, and the `status` / `pong` / unknown frame types, leave
the map untouched (their effects are confined to the persisted device
directory). -/
def cm_handle_message (st : CMState) (message : Json) : CMState :=
  let msgId : Option String :=
    match message.get? "id" with
    | some (.str s) => if s = "" then none else some s
    | _ => none
  match message.get? "type" with
  | some (.str t) =>
    if t = "response" then
      match msgId with
      | some s =>
        match getKey st.pending s with
        | some q =>
          let result : Json :=
            if message.hasKey "error" then .obj [("error", message.getD "error" .null)]
            else .obj [("payload", message.getD "payload" (.obj []))]
          if q.length ≥ 1 then st
          else { st with pending := setKey st.pending s (q ++ [result]) }
        | none => st
      | none => st
    else st
  | _ => st

/-- Environment of `PubSubRouter._handle_remote_request`: this instance's
identity and callbacks, plus the outcome of the response publish. -/
structure RemoteEnv where
  myInstance : String
  checkerSet : Bool
  checker : String → Bool
  handlerSet : Bool
  handler : String → String → Json → Nat → Except String Json
  publishRes : PublishRes

/-- The error message text built at pubsub_router.py line 709. -/
def deviceNotHereMessage (device : String) : String :=
  "Device " ++ device ++ " not connected to this instance"

/-- The error response envelope built at pubsub_router.py lines 706-710. -/
def deviceNotHereResponse (corrId device : String) : Json :=
  .obj [("type", .str "response"), ("correlation_id", .str corrId),
        ("error", .obj [("code", .str "DEVICE_NOT_HERE"),
                        ("message", .str (deviceNotHereMessage device))])]

/-- The success / error / no-handler response envelopes built at
pubsub_router.py lines 742-761. -/
def remoteHandlerResponse (env : RemoteEnv) (corrId device action : String)
    (payload : Json) : Json :=
  if env.handlerSet then
    match env.handler device action payload 30 with
    | .ok result =>
        .obj [("type", .str "response"), ("correlation_id", .str corrId),
              ("payload", result)]
    | .error e =>
        .obj [("type", .str "response"), ("correlation_id", .str corrId),
              ("error", .obj [("code", .str "ERROR"), ("message", .str e)])]
  else
    .obj [("type", .str "response"), ("correlation_id", .str corrId),
          ("error", .obj [("code", .str "NO_HANDLER"),
                          ("message", .str "No local handler")])]

/-- `PubSubRouter._handle_remote_request` (pubsub_router.py lines 685-777),
with the message fields already destructured as the source does on entry. If
the device is not in the local table: invalidate this instance's own ownership
record for it, then publish a DEVICE_NOT_HERE error response to the source
slot, without touching the local handler. Otherwise delegate to the local
handler (sub-timeout 30s; the routing metadata passed alongside is not
modelled) and publish the resulting payload or error. A NotFound on the
response publish triggers slot cleanup. -/
def handle_remote_request (env : RemoteEnv) (st : RouterState)
    (corrId sourceSlot device action : String) (payload : Json) :
    RouterState × List Event :=
  let isLocal : Bool := env.checkerSet && env.checker device
  if !isLocal then
    let inv := invalidate_instance_for_device st.directory device env.myInstance
    let st1 : RouterState := { st with directory := inv.2 }
    let resp := deviceNotHereResponse corrId device
    let ev := [Event.invalidate device env.myInstance inv.1,
               Event.publish sourceSlot resp]
    match env.publishRes with
    | .notFound =>
        ({ st1 with slots := delete_slot_by_name st1.slots sourceSlot },
          ev ++ [.slotCleanup sourceSlot])
    | _ => (st1, ev)
  else
    let resp := remoteHandlerResponse env corrId device action payload
    let ev := (if env.handlerSet then [Event.localCall device action payload 30]
               else []) ++ [Event.publish sourceSlot resp]
    match env.publishRes with
    | .notFound =>
        ({ st with slots := delete_slot_by_name st.slots sourceSlot },
          ev ++ [.slotCleanup sourceSlot])
    | _ => (st, ev)

/-- `PubSubRouter.MAX_BUFFER_SIZE` (pubsub_router.py line 70). -/
def MAX_BUFFER_SIZE : Nat := 50

/-- `PubSubRouter.BUFFER_FLUSH_DELAY_MS` (pubsub_router.py line 69). -/
def BUFFER_FLUSH_DELAY_MS : Nat := 200

/-- Per-user broadcast buffer state: the ordered pending events and whether a
delayed flush task is currently scheduled. -/
structure BufferState where
  buffer : List Json
  flushScheduled : Bool

/-- Environment of a flush for one user: the user id, this instance, the
instances currently hosting web clients for the user (the read
`SessionRepository.get_web_client_instance_ids`, modelled from the spec since
the repository file is not in the source tree), and the slot pool. -/
structure FlushEnv where
  userId : String
  myInstance : String
  webClientInstances : List String
  slots : List (String × String)

/-- The batch envelope built at pubsub_router.py lines 576-580. -/
def batchMessage (userId : String) (updates : List Json) : Json :=
  .obj [("type", .str "batch"), ("user_id", .str userId),
        ("updates", .arr updates)]

/-- Target slot computation of `_flush_buffer` (pubsub_router.py lines
560-569): every web-client instance except this one that currently holds a
slot. -/
def flushTargetSlots (env : FlushEnv) : List String :=
  env.webClientInstances.filterMap (fun inst =>
    if inst = env.myInstance then none else getKey env.slots inst)

/-- `PubSubRouter._flush_buffer` (pubsub_router.py lines 541-591) for one
user: an empty buffer is a no-op; otherwise the buffer is drained, the flush
task entry dropped, and one batch message carrying the full ordered update
list is published per remote target slot (per-slot publish failures are
logged and do not affect the other targets, so every target receives its
publish attempt). -/
def flush_buffer (env : FlushEnv) (st : BufferState) :
    BufferState × List (String × Json) :=
  if st.buffer.isEmpty then (st, [])
  else
    let updates := st.buffer
    let st1 : BufferState := { buffer := [], flushScheduled := false }
    (st1, (flushTargetSlots env).map
      (fun slot => (slot, batchMessage env.userId updates)))

/-- `PubSubRouter._add_to_buffer` (pubsub_router.py lines 513-531): append the
update, cancel any scheduled flush task, then either flush immediately (buffer
reached `MAX_BUFFER_SIZE`) or schedule a fresh delayed flush. -/
def add_to_buffer (env : FlushEnv) (st : BufferState) (update : Json) :
    BufferState × List (String × Json) :=
  let buf := st.buffer ++ [update]
  if buf.length ≥ MAX_BUFFER_SIZE then
    flush_buffer env { buffer := buf, flushScheduled := false }
  else
    ({ buffer := buf, flushScheduled := true }, [])

/-- A burst of updates for one user fed through `_add_to_buffer`, none of the
scheduled delayed flushes firing in between (the burst fits inside the 200ms
debounce window); collects the published batches in order. -/
def add_many (env : FlushEnv) (st : BufferState) :
    List Json → BufferState × List (String × Json)
  | [] => (st, [])
  | u :: rest =>
    let step := add_to_buffer env st u
    let tail := add_many env step.1 rest
    (tail.1, step.2 ++ tail.2)

/-! Concrete inputs used by the witness theorems. -/

/-- Remote-owner routing environment: device not local, routing enabled, the
awaited response times out on every attempt. -/
def envC1 : Env where
  enabled := true
  myInstance := "A"
  mySlot := "slot-a"
  checkerSet := true
  checker := fun _ => false
  handlerSet := true
  handler := fun _ _ p _ => .ok p
  cid := fun b => if b then "c2" else "c1"
  publishRes := fun _ => .ok
  response := fun _ => .timedOut

/-- Directory says device dev is owned by remote instance B, which holds a
slot. -/
def stC1 : RouterState := { directory := [("dev", "B")], slots := [("B", "slot-b")] }

/-- Routing environment for the no-slot scenario. -/
def envC2 : Env where
  enabled := true
  myInstance := "A"
  mySlot := "slot-a"
  checkerSet := true
  checker := fun _ => false
  handlerSet := true
  handler := fun _ _ p _ => .ok p
  cid := fun _ => "c"
  publishRes := fun _ => .ok
  response := fun _ => .timedOut

/-- Directory names remote instance B as owner, but the slot pool has no slot
for B. -/
def stC2 : RouterState := { directory := [("dev", "B")], slots := [] }

/-- Pending-requests map holding one unresolved future. -/
def pC3 : List (String × Option Json) := [("c", none)]

/-- Remote-side environment whose local device checker rejects every device. -/
def envC4 : RemoteEnv where
  myInstance := "A"
  checkerSet := true
  checker := fun _ => false
  handlerSet := true
  handler := fun _ _ p _ => .ok p
  publishRes := .ok

/-- This instance (A) still holds a stale ownership claim for device dev. -/
def stC4 : RouterState := { directory := [("dev", "A")], slots := [("A", "slot-a")] }

/-- Routing environment where the first attempt receives a DEVICE_NOT_HERE
error response and the retry receives a success payload. -/
def envC5 : Env where
  enabled := true
  myInstance := "A"
  mySlot := "slot-a"
  checkerSet := true
  checker := fun _ => false
  handlerSet := true
  handler := fun _ _ p _ => .ok p
  cid := fun b => if b then "c2" else "c1"
  publishRes := fun _ => .ok
  response := fun isRetry =>
    if isRetry then .result (Json.obj [("payload", Json.str "done")])
    else .result (Json.obj [("error",
      Json.obj [("code", Json.str "DEVICE_NOT_HERE"), ("message", Json.str "gone")])])

/-- Directory and slot pool for the DEVICE_NOT_HERE round trip. -/
def stC5 : RouterState := { directory := [("dev", "B")], slots := [("B", "slot-b")] }

/-- Environment whose local device checker accepts device dev. -/
def envC6 : Env where
  enabled := true
  myInstance := "A"
  mySlot := "slot-a"
  checkerSet := true
  checker := fun d => d = "dev"
  handlerSet := true
  handler := fun _ _ p _ => .ok p
  cid := fun _ => "c"
  publishRes := fun _ => .ok
  response := fun _ => .timedOut

/-- A state whose directory and slot pool would route dev remotely, were the
fast path not taken. -/
def stC6 : RouterState := { directory := [("dev", "B")], slots := [("B", "slot-b")] }

/-- Flush environment: user u, this instance A, one remote web-client instance
B holding slot-b. -/
def envC7 : FlushEnv where
  userId := "u"
  myInstance := "A"
  webClientInstances := ["A", "B"]
  slots := [("B", "slot-b")]

/-- Sixty distinct update events arriving in order. -/
def updates60 : List Json := (List.range 60).map (fun n => Json.num n)

/-- Number of updates carried by a batch envelope. -/
def batchUpdateCount (m : Json) : Nat :=
  match m.get? "updates" with
  | some (.arr l) => l.length
  | _ => 0

/-- Device Link call whose awaited response queue times out. -/
def envC8 : CMEnv := { requestId := "r1", awaitRes := .timedOut }

/-- Local table holding device dev, no pending requests. -/
def stC8 : CMState := { connections := ["dev"], pending := [] }

/-- A successful response carrying an inner payload. -/
def resC9 : Json := Json.obj [("payload", Json.obj [("homes", Json.arr [])])]

/-- Routing environment delivering `resC9` as the awaited result. -/
def envC9 : Env where
  enabled := true
  myInstance := "A"
  mySlot := "slot-a"
  checkerSet := true
  checker := fun _ => false
  handlerSet := true
  handler := fun _ _ p _ => .ok p
  cid := fun _ => "c1"
  publishRes := fun _ => .ok
  response := fun _ => .result resC9

/-- Directory and slot pool for the round-trip witness. -/
def stC9 : RouterState := { directory := [("dev", "B")], slots := [("B", "slot-b")] }

/-- Router with no GCP project configured (routing disabled) and no local
handler installed. -/
def envC10 : Env where
  enabled := false
  myInstance := "A"
  mySlot := "slot-a"
  checkerSet := false
  checker := fun _ => false
  handlerSet := false
  handler := fun _ _ p _ => .ok p
  cid := fun _ => "c"
  publishRes := fun _ => .ok
  response := fun _ => .timedOut

/-! Helper lemmas. -/

/-- Writing a key makes it readable. -/
theorem getKey_setKey_self {α : Type} (l : List (String × α)) (k : String) (v : α) :
    getKey (setKey l k v) k = some v := by
  induction l with
  | nil => simp [setKey, getKey]
  | cons p rest ih =>
    by_cases h : p.1 = k
    · simp [setKey, getKey, h]
    · simp [setKey, getKey, h, ih]

/-- Erasing a key makes it unreadable. -/
theorem getKey_eraseKey_self {α : Type} (l : List (String × α)) (k : String) :
    getKey (eraseKey l k) k = none := by
  induction l with
  | nil => simp [eraseKey, getKey]
  | cons p rest ih =>
    by_cases h : p.1 = k
    · simpa [eraseKey, getKey, h] using ih
    · simpa [eraseKey, getKey, h] using ih

/-- Registering a fresh key and popping it restores the map. -/
theorem popKey_setKey_fresh {α : Type} (l : List (String × α)) (k : String) (v : α)
    (h : getKey l k = none) : popKey (setKey l k v) k = l := by
  induction l with
  | nil => simp [setKey, popKey]
  | cons p rest ih =>
    by_cases hk : p.1 = k
    · simp [getKey, hk] at h
    · simp [getKey, hk] at h
      simp [setKey, popKey, hk, ih h]

/-- A run with retry budget r makes at most r + 1 attempts. -/
theorem sendRequestGo_attempts_le :
    ∀ (r : Nat) (env : Env) (d a : String) (p : Json) (t : Nat) (st : RouterState),
      (sendRequestGo env d a p t r st).attempts ≤ r + 1 := by
  intro r
  induction r using Nat.strong_induction_on with
  | _ r ih =>
    intro env d a p t st
    unfold sendRequestGo
    repeat' split
    all_goals try dsimp only
    all_goals repeat' split
    all_goals try dsimp only
    all_goals first
      | omega
      | (apply Nat.succ_le_succ
         refine le_trans (ih _ ?_ _ _ _ _ _ _) ?_ <;> omega)

/-- A run with no retry budget (the source flag is_retry True) is exactly one
attempt. -/
theorem sendRequestGo_zero_attempts (env : Env) (d a : String) (p : Json) (t : Nat)
    (st : RouterState) : (sendRequestGo env d a p t 0 st).attempts = 1 := by
  unfold sendRequestGo
  repeat' split
  all_goals try dsimp only
  all_goals repeat' split
  all_goals first | omega | rfl

/-- A run with no retry budget never invalidates a directory record: every
invalidation site of the source sits inside an `if not is_retry` guard. -/
theorem sendRequestGo_zero_no_invalidate (env : Env) (d a : String) (p : Json)
    (t : Nat) (st : RouterState) :
    ((sendRequestGo env d a p t 0 st).events).all (fun e => !e.isInvalidate) = true := by
  unfold sendRequestGo
  repeat' split
  all_goals try dsimp only
  all_goals repeat' split
  all_goals first | omega | simp [Event.isInvalidate]

/-- When routing is on and the device is not local, a run with no retry budget
starts with a directory lookup against the current state. -/
theorem sendRequestGo_zero_head (env : Env) (d a : String) (p : Json) (t : Nat)
    (st : RouterState) (hen : env.enabled = true)
    (hloc : (env.checkerSet && env.checker d) = false) :
    ((sendRequestGo env d a p t 0 st).events).head? =
      some (.dirLookup d (get_device_session st d)) := by
  unfold sendRequestGo
  simp only [hen, hloc, Bool.not_true, Bool.false_eq_true, if_false]
  repeat' split
  all_goals try dsimp only
  all_goals repeat' split
  all_goals first | omega | simp_all

/-- A burst that stays below the buffer cap only accumulates: no flush, no
publishes. -/
theorem add_many_below_cap (env : FlushEnv) :
    ∀ (us : List Json) (st : BufferState),
      st.buffer.length + us.length < MAX_BUFFER_SIZE →
      add_many env st us =
        ({ buffer := st.buffer ++ us,
           flushScheduled := if us.isEmpty then st.flushScheduled else true }, []) := by
  intro us
  induction us with
  | nil => intro st _; simp [add_many]
  | cons u rest ih =>
    intro st hlen
    have hstep : add_to_buffer env st u =
        ({ buffer := st.buffer ++ [u], flushScheduled := true }, []) := by
      unfold add_to_buffer
      have hlt : ¬ (st.buffer ++ [u]).length ≥ MAX_BUFFER_SIZE := by
        simp only [List.length_append, List.length_cons, List.length_nil] at hlen ⊢
        omega
      rw [if_neg hlt]
    have hrec := ih { buffer := st.buffer ++ [u], flushScheduled := true }
      (by
        simp only [List.length_append, List.length_cons, List.length_nil] at hlen ⊢
        omega)
    simp only [add_many, hstep, hrec]
    simp

/-- Feeding a concatenation of bursts concatenates the published batches. -/
theorem add_many_append (env : FlushEnv) :
    ∀ (xs ys : List Json) (st : BufferState),
      add_many env st (xs ++ ys) =
        ((add_many env (add_many env st xs).1 ys).1,
         (add_many env st xs).2 ++ (add_many env (add_many env st xs).1 ys).2) := by
  intro xs
  induction xs with
  | nil => intro ys st; simp [add_many]
  | cons x rest ih =>
    intro ys st
    simp only [List.cons_append, add_many, List.append_eq, ih, List.append_assoc]

/-- A burst of exactly the buffer cap, fed into an empty buffer, flushes once:
one batch message per remote target slot, carrying the full burst in order. -/
theorem add_many_exact_cap (env : FlushEnv) (us : List Json)
    (h : us.length = MAX_BUFFER_SIZE) :
    add_many env ⟨[], false⟩ us =
      (⟨[], false⟩,
       (flushTargetSlots env).map (fun s => (s, batchMessage env.userId us))) := by
  have hne : us ≠ [] := by
    intro he; rw [he] at h; simp [MAX_BUFFER_SIZE] at h
  have hdecomp : us.dropLast ++ [us.getLast hne] = us := List.dropLast_append_getLast hne
  have hdl : us.dropLast.length = MAX_BUFFER_SIZE - 1 := by
    simp [List.length_dropLast, h]
  have hdlne : us.dropLast.isEmpty = false := by
    cases he : us.dropLast.isEmpty
    · rfl
    · rw [List.isEmpty_iff] at he
      rw [he] at hdl
      simp [MAX_BUFFER_SIZE] at hdl
  rw [← hdecomp, add_many_append]
  have hfirst : add_many env ⟨[], false⟩ us.dropLast =
      ({ buffer := us.dropLast, flushScheduled := true }, []) := by
    have := add_many_below_cap env us.dropLast ⟨[], false⟩
      (by simp [hdl, MAX_BUFFER_SIZE])
    simpa [hdlne] using this
  rw [hfirst]
  have hlast : add_to_buffer env { buffer := us.dropLast, flushScheduled := true }
      (us.getLast hne) =
      (⟨[], false⟩,
       (flushTargetSlots env).map
         (fun s => (s, batchMessage env.userId (us.dropLast ++ [us.getLast hne])))) := by
    unfold add_to_buffer
    have hful : (us.dropLast ++ [us.getLast hne]).length ≥ MAX_BUFFER_SIZE := by
      rw [List.length_append, hdl]
      simp [MAX_BUFFER_SIZE]
    simp only [hful, ge_iff_le, if_true]
    unfold flush_buffer
    have hne2 : us.dropLast ++ [us.getLast hne] ≠ [] := by simp
    simp [List.isEmpty_iff, hne2]
  simp [add_many, hlast]

/-! Claim theorems. -/

/-- Claim C1: with routing enabled, `send_request` performs at most one retry.
A call with is_retry True makes exactly one attempt, so no stale-routing
signal (missing slot, deleted topic, timeout, or DEVICE_NOT_HERE) can ever
trigger a second retry; a call with is_retry False makes at most two
attempts, bounding the recursion depth by 2; and any retry invocation (an
is_retry True call, reached only when the device is not local) begins with a
fresh directory lookup against the directory state it receives. -/
theorem c1_at_most_one_retry (env : Env) (st : RouterState) (d a : String)
    (p : Json) (t : Nat) :
    (send_request env st d a p t true).attempts = 1 ∧
    (send_request env st d a p t false).attempts ≤ 2 ∧
    (env.enabled = true → (env.checkerSet && env.checker d) = false →
      ((send_request env st d a p t true).events).head? =
        some (.dirLookup d (get_device_session st d))) := by
  refine ⟨?_, ?_, ?_⟩
  · simpa [send_request] using sendRequestGo_zero_attempts env d a p t st
  · simpa [send_request] using sendRequestGo_attempts_le 1 env d a p t st
  · intro hen hloc
    simpa [send_request] using sendRequestGo_zero_head env d a p t st hen hloc

/-- Witness for C1 at a concrete routing environment and state. -/
theorem c1_witness :
    (send_request envC1 stC1 "dev" "homes.list" (Json.obj []) 30 true).attempts = 1 ∧
    (send_request envC1 stC1 "dev" "homes.list" (Json.obj []) 30 false).attempts ≤ 2 ∧
    ((send_request envC1 stC1 "dev" "homes.list" (Json.obj []) 30 true).events).head? =
      some (.dirLookup "dev" (get_device_session stC1 "dev")) := by
  have h := c1_at_most_one_retry envC1 stC1 "dev" "homes.list" (Json.obj []) 30
  exact ⟨h.1, h.2.1, h.2.2 rfl rfl⟩

/-- Claim C2: when the directory names a remote owner but the slot pool has no
slot for it, `send_request` invalidates the ownership record and, on an
is_retry False call, retries once (a second attempt runs and the successful
invalidation is in the trace); an is_retry True call reaching the same
situation raises the no-active-slot ValueError after a single attempt,
retrying no further. The directory operations follow the spec model of the
session repository, whose file is absent from the source tree. -/
theorem c2_no_slot_invalidate_and_retry_once (env : Env) (st : RouterState)
    (d a i : String) (p : Json) (t : Nat)
    (hen : env.enabled = true)
    (hloc : (env.checkerSet && env.checker d) = false)
    (hdir : get_device_session st d = some i)
    (hne : i ≠ "") (hnm : i ≠ env.myInstance)
    (hslot : get_slot_for_instance st i = none) :
    (send_request env st d a p t false).attempts = 2 ∧
    Event.invalidate d i true ∈ (send_request env st d a p t false).events ∧
    (send_request env st d a p t true).outcome = .error (.noSlot i) ∧
    (send_request env st d a p t true).attempts = 1 ∧
    RouterError.raisedAsValueError (.noSlot i) = true := by
  have hdirK : getKey st.directory d = some i := hdir
  have hinv : invalidate_instance_for_device st.directory d i =
      (true, eraseKey st.directory d) := by
    simp [invalidate_instance_for_device, hdirK]
  have e1 : send_request env st d a p t false = sendRequestGo env d a p t 1 st := rfl
  have e0 : send_request env st d a p t true = sendRequestGo env d a p t 0 st := rfl
  have htrue : sendRequestGo env d a p t 0 st =
      ⟨.error (.noSlot i), st, [.dirLookup d (some i), .slotLookup i none], 1⟩ := by
    rw [sendRequestGo]
    simp [hen, hloc, hdir, hne, hnm, hslot]
  refine ⟨?_, ?_, ?_, ?_, rfl⟩
  · rw [e1, sendRequestGo]
    simp [hen, hloc, hdir, hne, hnm, hslot, hinv, sendRequestGo_zero_attempts]
  · rw [e1, sendRequestGo]
    simp [hen, hloc, hdir, hne, hnm, hslot, hinv]
  · rw [e0, htrue]
  · rw [e0, htrue]

/-- Witness for C2: instance B owns the device but holds no slot. -/
theorem c2_witness :
    (send_request envC2 stC2 "dev" "homes.list" (Json.obj []) 30 false).attempts = 2 ∧
    Event.invalidate "dev" "B" true ∈
      (send_request envC2 stC2 "dev" "homes.list" (Json.obj []) 30 false).events ∧
    (send_request envC2 stC2 "dev" "homes.list" (Json.obj []) 30 true).outcome =
      .error (.noSlot "B") ∧
    (send_request envC2 stC2 "dev" "homes.list" (Json.obj []) 30 true).attempts = 1 ∧
    RouterError.raisedAsValueError (.noSlot "B") = true :=
  c2_no_slot_invalidate_and_retry_once envC2 stC2 "dev" "homes.list" "B"
    (Json.obj []) 30 rfl rfl rfl (by decide) (by decide) rfl

/-- Claim C3: a pending result is resolved at most once. A second call to
`resolve_future` for the same correlation id leaves the map exactly as the
first call left it, whatever data the duplicate carries; and on the Device
Link side, a `response` frame for a pending entry whose bounded queue is
already full (a duplicate or replayed response) leaves the connection state
untouched. Neither path produces an error outcome: both functions are total
state transformers, mirroring the logged no-ops of the source. -/
theorem c3_resolution_at_most_once :
    (∀ (pending : List (String × Option Json)) (corrId : String) (d d' : Json),
      resolve_future (resolve_future pending corrId d) corrId d' =
        resolve_future pending corrId d) ∧
    (∀ (st : CMState) (msg : Json) (s : String) (q : List Json),
      msg.get? "type" = some (.str "response") →
      msg.get? "id" = some (.str s) → s ≠ "" →
      getKey st.pending s = some q → q ≠ [] →
      cm_handle_message st msg = st) := by
  constructor
  · intro pending corrId d d'
    match h : getKey pending corrId with
    | none => simp [resolve_future, h]
    | some (some x) => simp [resolve_future, h]
    | some none =>
      simp [resolve_future, h, getKey_setKey_self]
  · intro st msg s q htype hid hs hq hqne
    have hlen : q.length ≥ 1 := List.length_pos.mpr hqne
    simp [cm_handle_message, htype, hid, hs, hq, hlen]

/-- Witness for C3: a duplicate resolution and a duplicate response frame are
both no-ops. -/
theorem c3_witness :
    resolve_future (resolve_future pC3 "c" (Json.str "a")) "c" (Json.str "b") =
      resolve_future pC3 "c" (Json.str "a") ∧
    cm_handle_message ⟨[], [("r", [Json.obj [("payload", Json.null)]])]⟩
      (Json.obj [("id", Json.str "r"), ("type", Json.str "response"),
                 ("payload", Json.str "dup")]) =
      ⟨[], [("r", [Json.obj [("payload", Json.null)]])]⟩ := by
  refine ⟨c3_resolution_at_most_once.1 pC3 "c" _ _, ?_⟩
  exact c3_resolution_at_most_once.2 _ _ "r" [Json.obj [("payload", Json.null)]]
    rfl rfl (by decide) rfl (by simp)

/-- Claim C4: an instance receiving a routed bus request for a device absent
from its local table invalidates its own ownership record for that device in
the directory (first event, before any publish, and reflected in the state),
then publishes a response carrying error code DEVICE_NOT_HERE under the same
correlation id to the source slot (second event); the local handler is never
invoked. The directory invalidation follows the spec model of the session
repository, whose file is absent from the source tree. -/
theorem c4_remote_request_not_local (env : RemoteEnv) (st : RouterState)
    (corrId srcSlot d a : String) (p : Json)
    (hloc : (env.checkerSet && env.checker d) = false) :
    (handle_remote_request env st corrId srcSlot d a p).1.directory =
      (invalidate_instance_for_device st.directory d env.myInstance).2 ∧
    ((handle_remote_request env st corrId srcSlot d a p).2)[0]? =
      some (.invalidate d env.myInstance
        (invalidate_instance_for_device st.directory d env.myInstance).1) ∧
    ((handle_remote_request env st corrId srcSlot d a p).2)[1]? =
      some (.publish srcSlot (deviceNotHereResponse corrId d)) ∧
    (deviceNotHereResponse corrId d).get? "correlation_id" = some (.str corrId) ∧
    ((deviceNotHereResponse corrId d).getD "error" .null).get? "code" =
      some (.str "DEVICE_NOT_HERE") ∧
    ((handle_remote_request env st corrId srcSlot d a p).2).all
      (fun e => !e.isLocalCall) = true := by
  unfold handle_remote_request
  cases hp : env.publishRes <;>
    simp [hloc, hp, deviceNotHereResponse, deviceNotHereMessage,
      Json.get?, Json.getD, Json.lookupField, Event.isLocalCall]

/-- Witness for C4: instance A holds a stale claim for a device it no longer
has. -/
theorem c4_witness :
    (handle_remote_request envC4 stC4 "c1" "slot-src" "dev" "homes.list"
        (Json.obj [])).1.directory =
      (invalidate_instance_for_device stC4.directory "dev" envC4.myInstance).2 ∧
    ((handle_remote_request envC4 stC4 "c1" "slot-src" "dev" "homes.list"
        (Json.obj [])).2)[0]? =
      some (.invalidate "dev" envC4.myInstance
        (invalidate_instance_for_device stC4.directory "dev" envC4.myInstance).1) ∧
    ((handle_remote_request envC4 stC4 "c1" "slot-src" "dev" "homes.list"
        (Json.obj [])).2)[1]? =
      some (.publish "slot-src" (deviceNotHereResponse "c1" "dev")) ∧
    (deviceNotHereResponse "c1" "dev").get? "correlation_id" = some (.str "c1") ∧
    ((deviceNotHereResponse "c1" "dev").getD "error" .null).get? "code" =
      some (.str "DEVICE_NOT_HERE") ∧
    ((handle_remote_request envC4 stC4 "c1" "slot-src" "dev" "homes.list"
        (Json.obj [])).2).all (fun e => !e.isLocalCall) = true :=
  c4_remote_request_not_local envC4 stC4 "c1" "slot-src" "dev" "homes.list"
    (Json.obj []) rfl

/-- Counterexample to claim C5 as stated: at this concrete input the awaited
result carries error code DEVICE_NOT_HERE on the first attempt and is_retry is
false, and `send_request` does retry once (two attempts) - but it performs no
ownership invalidation at all: the trace holds no invalidation event and the
directory is unchanged. The claim says the call invalidates ownership before
retrying; in the source, lines 417-420 retry without any invalidation (the
remote instance already invalidated the record before replying, per C4). -/
theorem c5_counterexample :
    (send_request envC5 stC5 "dev" "homes.list" (Json.obj []) 30 false).attempts = 2 ∧
    ((send_request envC5 stC5 "dev" "homes.list" (Json.obj []) 30 false).events).all
      (fun e => !e.isInvalidate) = true ∧
    (send_request envC5 stC5 "dev" "homes.list" (Json.obj []) 30 false).state.directory =
      stC5.directory ∧
    (send_request envC5 stC5 "dev" "homes.list" (Json.obj []) 30 false).outcome =
      .ok (Json.str "done") := by
  refine ⟨rfl, rfl, rfl, rfl⟩

/-- Claim C5, amended: when the awaited cross-instance result carries an error,
an is_retry False call whose error code is DEVICE_NOT_HERE retries once with a
fresh directory lookup, passing the state on unchanged and performing no
invalidation of its own (the remote instance has already invalidated the
record before replying); any other error code fails with the carried message;
DEVICE_NOT_HERE on the retry also fails with the carried message; and a result
with no error returns the inner payload. -/
theorem c5_error_response_handling (env : Env) (st : RouterState)
    (d a i s : String) (p : Json) (t : Nat)
    (hen : env.enabled = true)
    (hloc : (env.checkerSet && env.checker d) = false)
    (hdir : get_device_session st d = some i)
    (hne : i ≠ "") (hnm : i ≠ env.myInstance)
    (hslot : get_slot_for_instance st i = some s)
    (hpub : env.publishRes false = .ok) :
    (∀ res err, env.response false = .result res → res.get? "error" = some err →
      errorCodeIsDeviceNotHere err = true →
      send_request env st d a p t false =
        ⟨(send_request env st d a p t true).outcome,
         (send_request env st d a p t true).state,
         [.dirLookup d (some i), .slotLookup i (some s),
          .publish s (requestMessage (env.cid false) env.mySlot d a p),
          .awaitResult (env.cid false)] ++ (send_request env st d a p t true).events,
         (send_request env st d a p t true).attempts + 1⟩ ∧
      ((send_request env st d a p t false).events).all
        (fun e => !e.isInvalidate) = true) ∧
    (∀ res err, env.response false = .result res → res.get? "error" = some err →
      errorCodeIsDeviceNotHere err = false →
      (send_request env st d a p t false).outcome =
        .error (.deviceError (err.getD "message" (.str "Unknown error")))) ∧
    (∀ res err, env.publishRes true = .ok → env.response true = .result res →
      res.get? "error" = some err →
      (send_request env st d a p t true).outcome =
        .error (.deviceError (err.getD "message" (.str "Unknown error")))) ∧
    (∀ res, env.response false = .result res → res.get? "error" = none →
      (send_request env st d a p t false).outcome = .ok (res.getD "payload" (.obj []))) := by
  have e1 : send_request env st d a p t false = sendRequestGo env d a p t 1 st := rfl
  have e0 : send_request env st d a p t true = sendRequestGo env d a p t 0 st := rfl
  refine ⟨?_, ?_, ?_, ?_⟩
  · intro res err hres herr hcode
    have hmain : send_request env st d a p t false =
        ⟨(send_request env st d a p t true).outcome,
         (send_request env st d a p t true).state,
         [.dirLookup d (some i), .slotLookup i (some s),
          .publish s (requestMessage (env.cid false) env.mySlot d a p),
          .awaitResult (env.cid false)] ++ (send_request env st d a p t true).events,
         (send_request env st d a p t true).attempts + 1⟩ := by
      rw [e1, e0, sendRequestGo]
      simp [hen, hloc, hdir, hne, hnm, hslot, hpub, hres, herr, hcode]
    refine ⟨hmain, ?_⟩
    rw [hmain]
    simp only [List.all_append, Bool.and_eq_true]
    constructor
    · rfl
    · rw [e0]
      exact sendRequestGo_zero_no_invalidate env d a p t st
  · intro res err hres herr hcode
    rw [e1, sendRequestGo]
    simp [hen, hloc, hdir, hne, hnm, hslot, hpub, hres, herr, hcode]
  · intro res err hpub0 hres herr
    rw [e0, sendRequestGo]
    simp [hen, hloc, hdir, hne, hnm, hslot, hpub0, hres, herr]
  · intro res hres herr
    rw [e1, sendRequestGo]
    simp [hen, hloc, hdir, hne, hnm, hslot, hpub, hres, herr]

/-- Witness for the amended C5 at the DEVICE_NOT_HERE round trip input. -/
theorem c5_amended_witness :
    (send_request envC5 stC5 "dev" "homes.list" (Json.obj []) 30 false =
      ⟨(send_request envC5 stC5 "dev" "homes.list" (Json.obj []) 30 true).outcome,
       (send_request envC5 stC5 "dev" "homes.list" (Json.obj []) 30 true).state,
       [.dirLookup "dev" (some "B"), .slotLookup "B" (some "slot-b"),
        .publish "slot-b" (requestMessage (envC5.cid false) envC5.mySlot "dev"
          "homes.list" (Json.obj [])),
        .awaitResult (envC5.cid false)] ++
         (send_request envC5 stC5 "dev" "homes.list" (Json.obj []) 30 true).events,
       (send_request envC5 stC5 "dev" "homes.list" (Json.obj []) 30 true).attempts + 1⟩) ∧
    ((send_request envC5 stC5 "dev" "homes.list" (Json.obj []) 30 false).events).all
      (fun e => !e.isInvalidate) = true :=
  (c5_error_response_handling envC5 stC5 "dev" "homes.list" "B" "slot-b"
      (Json.obj []) 30 rfl rfl rfl (by decide) (by decide) rfl rfl).1
    (Json.obj [("error", Json.obj [("code", Json.str "DEVICE_NOT_HERE"),
      ("message", Json.str "gone")])])
    (Json.obj [("code", Json.str "DEVICE_NOT_HERE"), ("message", Json.str "gone")])
    rfl rfl rfl

/-- Claim C6: for a device the local device checker reports as connected,
`send_request` delegates directly to the local handler with the caller's
arguments; the full effect trace is that single local call, so no bus publish
and no directory or slot-pool lookup happens, and the state is untouched. -/
theorem c6_local_fast_path (env : Env) (st : RouterState) (d a : String)
    (p : Json) (t : Nat) (isRetry : Bool)
    (hcs : env.checkerSet = true) (hck : env.checker d = true)
    (hh : env.handlerSet = true) :
    send_request env st d a p t isRetry =
      ⟨handlerOutcome (env.handler d a p t), st, [.localCall d a p t], 1⟩ := by
  unfold send_request sendRequestGo
  cases hen : env.enabled <;> simp [hcs, hck, hh, hen]

/-- Witness for C6 at a state that would otherwise route remotely. -/
theorem c6_witness :
    send_request envC6 stC6 "dev" "homes.list" (Json.str "pl") 30 false =
      ⟨handlerOutcome (envC6.handler "dev" "homes.list" (Json.str "pl") 30), stC6,
        [.localCall "dev" "homes.list" (Json.str "pl") 30], 1⟩ :=
  c6_local_fast_path envC6 stC6 "dev" "homes.list" (Json.str "pl") 30 false
    rfl (by simp [envC6]) rfl

set_option maxRecDepth 8000 in
/-- Counterexample to claim C7 as stated: sixty updates buffered before any
flush delay elapses do not yield a single batch containing all sixty events.
The arrival of the fiftieth update hits MAX_BUFFER_SIZE and flushes
immediately: the one message published to the single remote target slot
carries exactly the first fifty events, and the remaining ten are still
sitting in the buffer. -/
theorem c7_counterexample :
    (add_many envC7 ⟨[], false⟩ updates60).2 =
      [("slot-b", batchMessage "u" (updates60.take 50))] ∧
    (add_many envC7 ⟨[], false⟩ updates60).1.buffer = updates60.drop 50 ∧
    (updates60.take 50).length = 50 ∧ updates60.length = 60 ∧
    batchUpdateCount (batchMessage "u" (updates60.take 50)) = 50 ∧
    ¬ ((add_many envC7 ⟨[], false⟩ updates60).2 =
        [("slot-b", batchMessage "u" updates60)]) := by
  refine ⟨rfl, rfl, rfl, rfl, rfl, ?_⟩
  intro he
  exact absurd
    (congrArg (fun l => batchUpdateCount (l.headD ("", Json.null)).2) he)
    (by decide)

/-- Claim C7, amended: if 60 update events for one user are buffered within
150ms (before any flush delay elapses), the arrival of the 50th triggers an
immediate flush that publishes exactly one batched bus message per remote
target instance, carrying the first 50 events in arrival order; the remaining
10 events form a new buffer awaiting the rescheduled 200ms delayed flush; and
a further event arriving after the flush joins that new buffer without
reopening the flushed batch and without publishing anything. -/
theorem c7_burst_of_sixty (env : FlushEnv) (us : List Json) (h : us.length = 60) :
    add_many env ⟨[], false⟩ us =
      (⟨us.drop 50, true⟩,
       (flushTargetSlots env).map (fun s => (s, batchMessage env.userId (us.take 50)))) ∧
    (∀ extra : Json,
      (add_to_buffer env (add_many env ⟨[], false⟩ us).1 extra).2 = [] ∧
      (add_to_buffer env (add_many env ⟨[], false⟩ us).1 extra).1.buffer =
        us.drop 50 ++ [extra]) := by
  have hsplit : us.take 50 ++ us.drop 50 = us := List.take_append_drop 50 us
  have htl : (us.take 50).length = MAX_BUFFER_SIZE := by
    rw [List.length_take, h]
    decide
  have hdl : (us.drop 50).length = 10 := by
    rw [List.length_drop, h]
  have hdne : (us.drop 50).isEmpty = false := by
    cases he : (us.drop 50).isEmpty
    · rfl
    · rw [List.isEmpty_iff] at he
      rw [he] at hdl
      simp at hdl
  have hmain : add_many env ⟨[], false⟩ us =
      (⟨us.drop 50, true⟩,
       (flushTargetSlots env).map (fun s => (s, batchMessage env.userId (us.take 50)))) := by
    conv_lhs => rw [← hsplit]
    rw [add_many_append, add_many_exact_cap env (us.take 50) htl,
        add_many_below_cap env (us.drop 50) ⟨[], false⟩
          (by rw [hdl]; simp [MAX_BUFFER_SIZE])]
    simp [hdne]
  refine ⟨hmain, ?_⟩
  intro extra
  rw [hmain]
  have hlt : ¬ ((us.drop 50) ++ [extra]).length ≥ MAX_BUFFER_SIZE := by
    rw [List.length_append, hdl]
    simp [MAX_BUFFER_SIZE]
  constructor
  · unfold add_to_buffer
    rw [if_neg hlt]
  · unfold add_to_buffer
    rw [if_neg hlt]

/-- Witness for the amended C7 at the sixty concrete updates, with a 61st
event arriving after the flush. -/
theorem c7_amended_witness :
    add_many envC7 ⟨[], false⟩ updates60 =
      (⟨updates60.drop 50, true⟩,
       (flushTargetSlots envC7).map
         (fun s => (s, batchMessage envC7.userId (updates60.take 50)))) ∧
    (add_to_buffer envC7 (add_many envC7 ⟨[], false⟩ updates60).1 (Json.num 60)).2 = [] ∧
    (add_to_buffer envC7 (add_many envC7 ⟨[], false⟩ updates60).1 (Json.num 60)).1.buffer =
      updates60.drop 50 ++ [Json.num 60] := by
  have h := c7_burst_of_sixty envC7 updates60 rfl
  exact ⟨h.1, (h.2 (Json.num 60)).1, (h.2 (Json.num 60)).2⟩

/-- Claim C8: the Device Link send path fails with the not-connected
ValueError exactly when the device id is absent from the local connection
table at call time; on timeout it fails with TimeoutError and the pending
entry has been removed (the pending map is back to what it was, the fresh
request id absent); and a response frame arriving after the pending entry is
gone leaves the connection state entirely unchanged. -/
theorem c8_device_link_send_path (env : CMEnv) (st : CMState) (d a : String)
    (p : Json) (t : Nat) :
    ((cm_send_request env st d a p t).outcome = .error (.notConnected d) ↔
      st.connections.contains d = false) ∧
    (st.connections.contains d = true → env.awaitRes = .timedOut →
      getKey st.pending env.requestId = none →
      (cm_send_request env st d a p t).outcome = .error (.timeout d) ∧
      (cm_send_request env st d a p t).state.pending = st.pending) ∧
    (∀ (cmst : CMState) (msg : Json) (s : String),
      msg.get? "type" = some (.str "response") → msg.get? "id" = some (.str s) →
      getKey cmst.pending s = none → cm_handle_message cmst msg = cmst) := by
  refine ⟨?_, ?_, ?_⟩
  · unfold cm_send_request
    cases hc : st.connections.contains d
    · simp [hc]
    · cases ha : env.awaitRes with
      | timedOut => simp [hc]
      | got res =>
        by_cases hk : res.hasKey "error" = true <;> simp [hc, hk]
  · intro hc ha hfresh
    have hc' : d ∈ st.connections := by simpa using hc
    unfold cm_send_request
    rw [ha]
    simp [hc', popKey_setKey_fresh _ _ _ hfresh]
  · intro cmst msg s htype hid hmiss
    unfold cm_handle_message
    by_cases hs : s = "" <;> simp [htype, hid, hs, hmiss]

/-- Witness for C8: a connected device whose request times out, and a late
response for an already-removed entry. -/
theorem c8_witness :
    ((cm_send_request envC8 stC8 "dev" "homes.list" (Json.obj []) 30).outcome =
        .error (.notConnected "dev") ↔ stC8.connections.contains "dev" = false) ∧
    ((cm_send_request envC8 stC8 "dev" "homes.list" (Json.obj []) 30).outcome =
        .error (.timeout "dev") ∧
      (cm_send_request envC8 stC8 "dev" "homes.list" (Json.obj []) 30).state.pending =
        stC8.pending) ∧
    cm_handle_message ⟨[], []⟩
        (Json.obj [("id", Json.str "gone"), ("type", Json.str "response"),
          ("payload", Json.str "late")]) = ⟨[], []⟩ := by
  have h := c8_device_link_send_path envC8 stC8 "dev" "homes.list" (Json.obj []) 30
  exact ⟨h.1, h.2.1 rfl rfl rfl, h.2.2 ⟨[], []⟩ _ "gone" rfl rfl rfl⟩

/-- Claim C9: the request envelope published to the target slot carries back
exactly the device id, action and payload the caller supplied (reading those
fields of the encoded envelope recovers them); and on a response with no
error, the value `send_request` returns is exactly the inner payload field of
the response - never the envelope. Serialization at the channel boundary is
the stdlib json.dumps/json.loads pair, modelled as the identity on `Json`
values. -/
theorem c9_round_trip :
    (∀ (corrId slot d a : String) (p : Json),
      (requestMessage corrId slot d a p).get? "device_id" = some (.str d) ∧
      (requestMessage corrId slot d a p).get? "action" = some (.str a) ∧
      (requestMessage corrId slot d a p).get? "payload" = some p) ∧
    (∀ (env : Env) (st : RouterState) (d a i s : String) (p : Json) (t : Nat)
        (res : Json),
      env.enabled = true → (env.checkerSet && env.checker d) = false →
      get_device_session st d = some i → i ≠ "" → i ≠ env.myInstance →
      get_slot_for_instance st i = some s → env.publishRes false = .ok →
      env.response false = .result res → res.get? "error" = none →
      (send_request env st d a p t false).outcome = .ok (res.getD "payload" (.obj [])) ∧
      Event.publish s (requestMessage (env.cid false) env.mySlot d a p) ∈
        (send_request env st d a p t false).events) := by
  constructor
  · intro corrId slot d a p
    refine ⟨rfl, rfl, rfl⟩
  · intro env st d a i s p t res hen hloc hdir hne hnm hslot hpub hres herr
    have e1 : send_request env st d a p t false = sendRequestGo env d a p t 1 st := rfl
    rw [e1, sendRequestGo]
    simp [hen, hloc, hdir, hne, hnm, hslot, hpub, hres, herr]

/-- Witness for C9 at a successful remote round trip. -/
theorem c9_witness :
    ((requestMessage "c1" "slot-a" "dev" "homes.list" (Json.str "pl")).get? "device_id" =
      some (.str "dev") ∧
     (requestMessage "c1" "slot-a" "dev" "homes.list" (Json.str "pl")).get? "action" =
      some (.str "homes.list") ∧
     (requestMessage "c1" "slot-a" "dev" "homes.list" (Json.str "pl")).get? "payload" =
      some (Json.str "pl")) ∧
    (send_request envC9 stC9 "dev" "homes.list" (Json.str "pl") 30 false).outcome =
      .ok (resC9.getD "payload" (.obj [])) ∧
    Event.publish "slot-b" (requestMessage (envC9.cid false) envC9.mySlot "dev"
        "homes.list" (Json.str "pl")) ∈
      (send_request envC9 stC9 "dev" "homes.list" (Json.str "pl") 30 false).events := by
  refine ⟨c9_round_trip.1 "c1" "slot-a" "dev" "homes.list" (Json.str "pl"), ?_, ?_⟩
  · exact (c9_round_trip.2 envC9 stC9 "dev" "homes.list" "B" "slot-b" (Json.str "pl")
      30 resC9 rfl rfl rfl (by decide) (by decide) rfl rfl rfl rfl).1
  · exact (c9_round_trip.2 envC9 stC9 "dev" "homes.list" "B" "slot-b" (Json.str "pl")
      30 resC9 rfl rfl rfl (by decide) (by decide) rfl rfl rfl rfl).2

/-- Claim C10: with routing disabled (no GCP project, enabled flag false),
every `send_request` call - retry flag and device locality notwithstanding -
is the direct delegation to the local handler with the caller's arguments: no
directory lookup, no slot lookup, no publish (the trace is the single local
call), the state untouched; and if no local handler is set the call raises
the no-handler ValueError. -/
theorem c10_disabled_delegates_locally (env : Env) (st : RouterState)
    (d a : String) (p : Json) (t : Nat) (isRetry : Bool)
    (hen : env.enabled = false) :
    send_request env st d a p t isRetry =
      (if env.handlerSet then
        ⟨handlerOutcome (env.handler d a p t), st, [.localCall d a p t], 1⟩
      else ⟨.error .noHandler, st, [], 1⟩) ∧
    RouterError.raisedAsValueError .noHandler = true := by
  constructor
  · unfold send_request sendRequestGo
    simp [hen]
  · rfl

/-- Witness for C10 with no handler installed. -/
theorem c10_witness :
    send_request envC10 stC6 "dev" "homes.list" (Json.str "pl") 30 false =
      (if envC10.handlerSet then
        ⟨handlerOutcome (envC10.handler "dev" "homes.list" (Json.str "pl") 30), stC6,
          [.localCall "dev" "homes.list" (Json.str "pl") 30], 1⟩
      else ⟨.error .noHandler, stC6, [], 1⟩) ∧
    RouterError.raisedAsValueError .noHandler = true :=
  c10_disabled_delegates_locally envC10 stC6 "dev" "homes.list" (Json.str "pl")
    30 false rfl

end Homecast
